import Mathlib

/-!
Verification development for the software-maintained CXL page-coherence core:
a shallow embedding, in Lean 4, of the inter-node messaging ring
(`msg_layer_module/cxl_shm.c`), the page-coherence fault engine
(`kernel/swmc/page_coherence.c`), and the replica pool / hotness daemon
(`mm` replication file).  Machine integers are modelled as `Nat`/`Int`
with explicit truncation where overflow matters; fallible C functions
return an error code paired with the updated state.
-/

/- ===================== Message layer data model (swmc_kmsg.h) ===================== -/

/-- Source `enum swmc_kmsg_type`: FETCH = 0. -/
def SWMC_KMSG_TYPE_FETCH : Int := 0

/-- Source `enum swmc_kmsg_type`: FETCH_ACK = 1. -/
def SWMC_KMSG_TYPE_FETCH_ACK : Int := 1

/-- Source `enum swmc_kmsg_type`: FETCH_NACK = 2. -/
def SWMC_KMSG_TYPE_FETCH_NACK : Int := 2

/-- Source `enum swmc_kmsg_type`: INVALIDATE = 3. -/
def SWMC_KMSG_TYPE_INVALIDATE : Int := 3

/-- Source `enum swmc_kmsg_type`: INVALIDATE_ACK = 4. -/
def SWMC_KMSG_TYPE_INVALIDATE_ACK : Int := 4

/-- Source `enum swmc_kmsg_type`: INVALIDATE_NACK = 5. -/
def SWMC_KMSG_TYPE_INVALIDATE_NACK : Int := 5

/-- Source `enum swmc_kmsg_type`: ERROR = 6. -/
def SWMC_KMSG_TYPE_ERROR : Int := 6

/-- Source `enum swmc_kmsg_type`: MAX = 7 (one past the last valid type). -/
def SWMC_KMSG_TYPE_MAX : Int := 7

/-- Source `struct payload_data`: shared-window offset, page order and the sender's
acked-fault count snapshot. -/
structure PayloadData where
  cxl_hdm_offset : Nat
  page_order : Int
  acked_fault_count : Int
deriving Repr, DecidableEq

/-- Source `struct swmc_kmsg_hdr`. -/
structure KMsgHdr where
  type : Int
  ws_id : Int
  from_nid : Int
  to_nid : Int
deriving Repr, DecidableEq

/-- Source `struct swmc_kmsg_message` = header + payload. -/
structure KMsg where
  header : KMsgHdr
  payload : PayloadData
deriving Repr, DecidableEq

/- ===================== Messaging ring (cxl_shm.c) ===================== -/

/-- Source `CXL_KMSG_RBUF_SIZE`: number of message slots in one ring window. -/
def CXL_KMSG_RBUF_SIZE : Nat := 65536

/-- Source `__validate_kmsg`: reject a type outside `[0, SWMC_KMSG_TYPE_MAX)` or a
negative `ws_id` / `from_nid` / `to_nid`; returns 0 when valid, `-EINVAL`
otherwise.  (The NULL-pointer check has no counterpart: a Lean `KMsg` always
exists.) -/
def __validate_kmsg (msg : KMsg) : Int :=
  if msg.header.type < 0 ∨ SWMC_KMSG_TYPE_MAX ≤ msg.header.type then -22
  else if msg.header.ws_id < 0 ∨ msg.header.from_nid < 0 ∨ msg.header.to_nid < 0 then -22
  else 0

/-- Source `struct cxl_kmsg_window`: head/tail counters, enabled flag and the slot
array.  The counters are the monotonically increasing 64-bit values of the
source (they only ever grow, and `tail ≤ head` throughout), so they are
embedded as unbounded `Nat`; a slot is read at `counter % CXL_KMSG_RBUF_SIZE`. -/
structure CxlKmsgWindow where
  head : Nat
  tail : Nat
  int_enabled : Bool
  buffer : Nat → KMsg

/-- Source `win_inuse`: number of messages in the ring = `head - tail`. -/
def win_inuse (win : CxlKmsgWindow) : Nat :=
  win.head - win.tail

/-- Source `win_put`: validate the message, drop it with `-EAGAIN` when the ring
already holds `CXL_KMSG_RBUF_SIZE - 1` messages, otherwise write the slot at
`head % CXL_KMSG_RBUF_SIZE` and advance `head`.  Returns the error code and
the resulting window. -/
def win_put (win : CxlKmsgWindow) (msg : KMsg) : Int × CxlKmsgWindow :=
  let ret := __validate_kmsg msg
  if ret ≠ 0 then (ret, win)
  else if CXL_KMSG_RBUF_SIZE - 1 ≤ win_inuse win then (-11, win)
  else
    let ticket := win.head % CXL_KMSG_RBUF_SIZE
    let win' := { win with buffer := fun i => if i = ticket then msg else win.buffer i }
    (0, { win' with head := win'.head + 1 })

/- ===================== Hotness histogram (replication daemon) ===================== -/

/-- Scan for the most significant set bit among the low `n` bits. -/
def fls64_go (x : Nat) : Nat → Nat
  | 0 => 0
  | n + 1 => if (x >>> n) % 2 = 1 then n + 1 else fls64_go x n

/-- Source `fls64`: 1-based index of the most significant set bit of a 64-bit value;
`fls64 0 = 0`. -/
def fls64 (x : Nat) : Nat := fls64_go x 64

/-- Source `swmc_access_count`: the upper 32 bits of a page's `private` word,
`(u32)(v >> 32)`. -/
def swmc_access_count (v : Nat) : Nat :=
  (v >>> 32) % 2 ^ 32

/-- Source `swmc_last_accessed_age`: bits 16..31 of a page's `private` word,
`(unsigned short)((v & 0xffff0000UL) >> 16)`. -/
def swmc_last_accessed_age (v : Nat) : Nat :=
  (v &&& 0xffff0000) >>> 16

/-- Result of the access-count / histogram update step of
`handle_sampled_address`: the (signed) indices at which `hist[]` is accessed,
the value written back to the page's `private` word, and whether the page is
appended to the replication-candidate list. -/
structure SampleHistEffect where
  hist_accesses : List Int
  new_private : Nat
  candidate : Bool
deriving Repr, DecidableEq

/-- The bookkeeping tail of `handle_sampled_address` once the sampled page is
resolved: ages the 32-bit access count by the age delta (the delta is stored
into an `unsigned short`, hence `% 2 ^ 16`), increments it, rebuilds the
`private` word, and touches `hist[old_msb_index]` and `hist[new_msb_index]`
when the MSB index changed, where `*_msb_index = fls64(count) - 1` as a C
`int`. -/
def handle_sampled_address_update (v : Nat) (monitoring_age : Nat)
    (hotness_threshold : Nat) : SampleHistEffect :=
  let access_count := swmc_access_count v
  let last_accessed_age := swmc_last_accessed_age v
  let access_count :=
    if last_accessed_age < monitoring_age then
      access_count >>> ((monitoring_age - last_accessed_age) % 2 ^ 16)
    else access_count
  let new_access_count := access_count + 1
  let last_accessed_age := monitoring_age
  let new_private := (new_access_count <<< 32) ||| (last_accessed_age <<< 16) ||| (v &&& 3)
  let new_msb_index : Int := (fls64 new_access_count : Int) - 1
  let old_msb_index : Int := (fls64 access_count : Int) - 1
  { hist_accesses := if new_msb_index ≠ old_msb_index then [old_msb_index, new_msb_index] else []
    new_private := new_private
    candidate := (hotness_threshold : Int) ≤ new_msb_index }

/-- One iteration of the cooling loop of `kreplicationd`
(`hist[j-1] += hist[j]; hist[j] = 0;`), acting on the histogram viewed as a
function from bucket index to count. -/
def cool_step (h : Nat → Nat) (j : Nat) : Nat → Nat :=
  fun i => if i = j - 1 then h (j - 1) + h j else if i = j then 0 else h i

/-- The cooling loop after the iterations `j = 1, …, k` have run. -/
def cool_upto (h : Nat → Nat) : Nat → (Nat → Nat)
  | 0 => h
  | k + 1 => cool_step (cool_upto h k) (k + 1)

/-- The full cooling step of `kreplicationd`
(`for (j = 1; j < 32; j++) { hist[j-1] += hist[j]; hist[j] = 0; }`). -/
def cool_down_histogram (h : Nat → Nat) : Nat → Nat :=
  cool_upto h 31

/- ===================== Replica pool (page replication file) ===================== -/

/-- Source `SWMC_TAG_MASK`: the low two bits of a page's `private` word hold the tag. -/
def SWMC_TAG_MASK : Nat := 3

/-- Source `SWMC_TAG_PTR = 0`: the word stores a replica pointer. -/
def SWMC_TAG_PTR : Nat := 0

/-- Source `SWMC_TAG_ACCESS = 1`: upper 32 bits are the access count. -/
def SWMC_TAG_ACCESS : Nat := 1

/-- Source `SWMC_TAG_REPLICA_SELF = 2`: this page itself is a replica. -/
def SWMC_TAG_REPLICA_SELF : Nat := 2

/-- Source `v & ~SWMC_TAG_MASK`: clear the low two tag bits of a `private` word
(arithmetically, subtract the residue modulo 4). -/
def swmc_clear_tag (v : Nat) : Nat := v - v % 4

/-- Source `get_replica_opt`, acting on the original page's `private` word: `NULL`
when the word is 0; when the tag (`v & SWMC_TAG_MASK`, i.e. `v % 4`) is
`SWMC_TAG_PTR` the stored pointer `swmc_decode_replica_ptr v = v & ~3`;
`NULL` for the ACCESS / REPLICA_SELF / reserved tags. -/
def get_replica_opt (v : Nat) : Option Nat :=
  if v = 0 then none
  else if v % 4 = SWMC_TAG_PTR then some (swmc_clear_tag v)
  else none

/-- The state touched by `create_page_replica` / `flush_page_replica` for one
original page and the replica page backing it: the `private` words, the
original's mapping/index, the `PG_modified` / `PG_shared` page flags, the page
contents, the replica's back pointer (`memcg_data`), its LRU membership, and
whether page-table entries still map each page.  `rep_freed` records that
`__free_pages` ran on the replica. -/
structure ReplicaPairState where
  orig_priv : Nat
  orig_mapping : Option Nat
  orig_index : Nat
  orig_modified : Bool
  orig_shared : Bool
  orig_data : List Nat
  orig_ptes_mapped : Bool
  rep_priv : Nat
  rep_memcg : Bool
  rep_mapping : Option Nat
  rep_index : Nat
  rep_modified : Bool
  rep_shared : Bool
  rep_data : List Nat
  rep_on_active : Bool
  rep_on_inactive : Bool
  rep_ptes_mapped : Bool
  rep_freed : Bool
deriving Repr, DecidableEq

/-- Source `create_page_replica` (order-0 path, as invoked by the daemon), with
`rep_addr` the address of the `struct page` the allocator returns (a
`struct page` pointer, so its two low bits are clear).  Mirrors the source:
refuse when the original already decodes to a replica; allocate a fresh
zeroed page (all page flags clear, off every LRU); copy the original's data;
on a stale-shared original free the fresh page and return the (zero) error
code; otherwise insert the replica at the head of the active LRU, unmap the
original, link the two pages (`memcg_data` / `private`), copy
mapping/index, and retag the replica's `private` word with
`REPLICA_SELF | ACCESS` (bitwise-or into a tag-cleared word = addition). -/
def create_page_replica (s : ReplicaPairState) (rep_addr : Nat) : Int × ReplicaPairState :=
  if (get_replica_opt s.orig_priv).isSome then (-22, s)
  else
    let s1 := { s with rep_priv := 0, rep_memcg := false, rep_mapping := none,
                       rep_index := 0, rep_modified := false, rep_shared := false,
                       rep_on_active := false, rep_on_inactive := false,
                       rep_ptes_mapped := false, rep_freed := false,
                       rep_data := List.replicate s.orig_data.length 0 }
    let s2 := { s1 with rep_data := s.orig_data }
    let mapping := s.orig_mapping
    let index := s.orig_index
    if s.orig_modified && s.orig_shared then
      (0, { s2 with rep_freed := true })
    else
      let s3 := { s2 with rep_on_active := true }
      let s4 := if mapping.isSome then { s3 with orig_ptes_mapped := false } else s3
      let s5 := { s4 with rep_memcg := true, orig_priv := rep_addr }
      let s6 := { s5 with rep_mapping := mapping, rep_index := index }
      let s7 := { s6 with rep_priv := swmc_clear_tag s6.orig_priv }
      let s8 := { s7 with rep_priv := s7.rep_priv + (SWMC_TAG_REPLICA_SELF + SWMC_TAG_ACCESS) }
      (0, s8)

/-- Source `writeback_page_replica`: fail with `-EINVAL` when the replica has no
back pointer, otherwise copy the replica's data back over the original (the
subsequent `flush_dcache_page` has no state counterpart). -/
def writeback_page_replica (s : ReplicaPairState) : Int × ReplicaPairState :=
  if !s.rep_memcg then (-22, s)
  else (0, { s with orig_data := s.rep_data })

/-- Source `flush_page_replica`: write the replica back, move the original's
`private` word forward (`replica->private & ~TAG | ACCESS`; the bitwise-or of
the tag into a tag-cleared word is addition) and restore its mapping/index;
on a stale-shared replica free it immediately (keeping its LRU linkage and
the link fields, as the source's `goto free_pages` does); otherwise clear the
link fields, remove the replica from its LRU list, unmap and free it. -/
def flush_page_replica (s : ReplicaPairState) : Int × ReplicaPairState :=
  let wb := writeback_page_replica s
  if wb.1 ≠ 0 then (wb.1, s)
  else
    let s1 := wb.2
    let s2 := { s1 with orig_priv := swmc_clear_tag s1.rep_priv + SWMC_TAG_ACCESS,
                        orig_mapping := s1.rep_mapping, orig_index := s1.rep_index }
    if s2.rep_modified && s2.rep_shared then
      (0, { s2 with rep_freed := true })
    else
      let s3 := { s2 with rep_priv := 0, rep_memcg := false }
      let s4 := { s3 with rep_on_active := false, rep_on_inactive := false }
      let s5 := { s4 with rep_ptes_mapped := false }
      (0, { s5 with rep_freed := true })

/- ===================== Fault engine (page_coherence.c) ===================== -/

/-- Source `enum fault_handle_state` viewed as the six flag bits of `fh_flags`
(RETRY = 0x20, REMOTE = 0x10, REPLICATED = 0x08, NEEDWRITE = 0x04,
MODIFIED = 0x02, SHARED = 0x01). -/
structure FHFlags where
  retry : Bool
  remote : Bool
  replicated : Bool
  needwrite : Bool
  modified : Bool
  shared : Bool
deriving Repr, DecidableEq

/-- Source `FH_CLEAR_FLAG_ALL`: every flag cleared. -/
def fh_flags_cleared : FHFlags :=
  ⟨false, false, false, false, false, false⟩

/-- Source `fh->fh_flags & 0x1F`: the 5-bit action-table index (the RETRY bit 0x20
is masked off). -/
def fh_flags_index (f : FHFlags) : Nat :=
  (if f.remote then 0x10 else 0) + (if f.replicated then 0x08 else 0) +
    (if f.needwrite then 0x04 else 0) + (if f.modified then 0x02 else 0) +
    (if f.shared then 0x01 else 0)

/-- Source `FH_ACTION_INVALID`. -/
def FH_ACTION_INVALID : Nat := 0x00

/-- Source `FH_ACTION_UPDATE_METADATA`. -/
def FH_ACTION_UPDATE_METADATA : Nat := 0x01

/-- Source `FH_ACTION_ISSUE_SYNC_TRANSACTION`. -/
def FH_ACTION_ISSUE_SYNC_TRANSACTION : Nat := 0x02

/-- Source `FH_ACTION_ISSUE_ASYNC_TRANSACTION`. -/
def FH_ACTION_ISSUE_ASYNC_TRANSACTION : Nat := 0x04

/-- Source `FH_ACTION_WAIT_FOR_ASYNC_TRANSACTION`. -/
def FH_ACTION_WAIT_FOR_ASYNC_TRANSACTION : Nat := 0x08

/-- Source `FH_ACTION_MAP_VPN_TO_PFN`. -/
def FH_ACTION_MAP_VPN_TO_PFN : Nat := 0x10

/-- Source `FH_ACTION_WRITEBACK`. -/
def FH_ACTION_WRITEBACK : Nat := 0x20

/-- Source `FH_ACTION_INVALIDATE`. -/
def FH_ACTION_INVALIDATE : Nat := 0x40

/-- Source `FH_ACTION_RESPOND`. -/
def FH_ACTION_RESPOND : Nat := 0x80

/-- Source `fh_action_table`: the fixed 32-entry table, indexed by
`REMOTE REPLICATED NEEDWRITE MODIFIED SHARED` (entries 0–15 local,
16–31 remote), copied cell by cell from the source. -/
def fh_action_table : List Nat := [
  FH_ACTION_ISSUE_ASYNC_TRANSACTION ||| FH_ACTION_UPDATE_METADATA ||| FH_ACTION_MAP_VPN_TO_PFN,
  FH_ACTION_MAP_VPN_TO_PFN,
  FH_ACTION_MAP_VPN_TO_PFN,
  FH_ACTION_MAP_VPN_TO_PFN,
  FH_ACTION_ISSUE_SYNC_TRANSACTION ||| FH_ACTION_UPDATE_METADATA ||| FH_ACTION_MAP_VPN_TO_PFN,
  FH_ACTION_ISSUE_SYNC_TRANSACTION ||| FH_ACTION_UPDATE_METADATA,
  FH_ACTION_MAP_VPN_TO_PFN,
  FH_ACTION_WAIT_FOR_ASYNC_TRANSACTION ||| FH_ACTION_ISSUE_SYNC_TRANSACTION |||
    FH_ACTION_UPDATE_METADATA ||| FH_ACTION_MAP_VPN_TO_PFN,
  FH_ACTION_ISSUE_SYNC_TRANSACTION ||| FH_ACTION_UPDATE_METADATA ||| FH_ACTION_MAP_VPN_TO_PFN,
  FH_ACTION_MAP_VPN_TO_PFN,
  FH_ACTION_MAP_VPN_TO_PFN,
  FH_ACTION_INVALID,
  FH_ACTION_ISSUE_SYNC_TRANSACTION ||| FH_ACTION_UPDATE_METADATA ||| FH_ACTION_MAP_VPN_TO_PFN,
  FH_ACTION_ISSUE_SYNC_TRANSACTION ||| FH_ACTION_UPDATE_METADATA ||| FH_ACTION_MAP_VPN_TO_PFN,
  FH_ACTION_MAP_VPN_TO_PFN,
  FH_ACTION_INVALID,
  FH_ACTION_RESPOND,
  FH_ACTION_RESPOND,
  FH_ACTION_RESPOND ||| FH_ACTION_WRITEBACK ||| FH_ACTION_UPDATE_METADATA,
  FH_ACTION_RESPOND,
  FH_ACTION_RESPOND,
  FH_ACTION_RESPOND ||| FH_ACTION_INVALIDATE ||| FH_ACTION_UPDATE_METADATA,
  FH_ACTION_RESPOND ||| FH_ACTION_WRITEBACK ||| FH_ACTION_INVALIDATE ||| FH_ACTION_UPDATE_METADATA,
  FH_ACTION_RESPOND ||| FH_ACTION_INVALIDATE ||| FH_ACTION_UPDATE_METADATA,
  FH_ACTION_RESPOND,
  FH_ACTION_RESPOND,
  FH_ACTION_RESPOND ||| FH_ACTION_WRITEBACK ||| FH_ACTION_UPDATE_METADATA,
  FH_ACTION_RESPOND,
  FH_ACTION_RESPOND,
  FH_ACTION_RESPOND ||| FH_ACTION_INVALIDATE ||| FH_ACTION_UPDATE_METADATA,
  FH_ACTION_RESPOND ||| FH_ACTION_INVALIDATE ||| FH_ACTION_WRITEBACK ||| FH_ACTION_UPDATE_METADATA,
  FH_ACTION_INVALID]

/-- Source `set_fh_action`: look the flag combination up in `fh_action_table`. -/
def set_fh_action (f : FHFlags) : Nat :=
  fh_action_table.getD (fh_flags_index f) 0

/-- The per-page metadata consulted by the engine: the `PG_shared`,
`PG_modified` and `PG_coherence` page flags plus the `private` word decoded
by `get_replica_opt`. -/
structure PageMeta where
  pageShared : Bool
  pageModified : Bool
  pageCoherence : Bool
  priv : Nat
deriving Repr, DecidableEq

/-- Source `check_metadata`: copy SHARED / MODIFIED from the page flags and set
REPLICATED when `get_replica_opt` is non-NULL. -/
def check_metadata (f : FHFlags) (m : PageMeta) : FHFlags :=
  { f with shared := m.pageShared, modified := m.pageModified,
           replicated := (get_replica_opt m.priv).isSome }

/-- Source `struct fault_handle`: page key, flags, chosen action and whether a local
waiter's completion is attached. -/
structure FaultHandle where
  original_pfn_val : Nat
  fh_flags : FHFlags
  fh_action : Nat
  hasComplete : Bool
deriving Repr, DecidableEq

/-- The engine state threaded through the fault paths: the fault-handle
chain (the hash bucket contents), per-pfn page metadata, the
`__local_acked_fault_count` and `nr_in_flight_transactions` counters, whether
`kmem_cache_alloc` succeeds, the `page_coherence_enabled` switch, and
`cxl_hdm_base`. -/
structure CohState where
  faults : List FaultHandle
  meta : Nat → PageMeta
  local_acked_fault_count : Int
  nr_in_flight_transactions : Int
  alloc_ok : Bool
  page_coherence_enabled : Bool
  cxl_hdm_base : Nat

/-- Replace the chain node for `pfn` by `fh'` (in-place mutation of the found
handle in the source). -/
def replace_handle (l : List FaultHandle) (pfn : Nat) (fh' : FaultHandle) : List FaultHandle :=
  l.map fun h => if h.original_pfn_val = pfn then fh' else h

/-- Source `has_lower_priority`: does the remote fault lose against the local
in-flight fault?  Remote READ loses to local WRITE; two WRITEs compare the
acked-fault counts (lower wins) and break ties with the node id
(lower id wins); everything else lets the remote proceed. -/
def has_lower_priority (fh : FaultHandle) (is_write : Bool)
    (remote_acked_fault_count : Int) (remote_node_id local_node_id : Int)
    (local_acked_count : Int) : Bool :=
  let local_is_write := fh.fh_flags.needwrite
  if !is_write && local_is_write then true
  else if is_write && local_is_write then
    if remote_acked_fault_count < local_acked_count then false
    else if local_acked_count < remote_acked_fault_count then true
    else decide (local_node_id < remote_node_id)
  else false

/-- Source `__start_remote_fault_handling`: search the chain for the page; an
existing REMOTE handle or a higher-priority local fault means NACK (`none`);
an existing lower/equal-priority local fault is ACKed, setting RETRY on it
for a remote write; otherwise allocate a fresh REMOTE handle, probe the
metadata and pick the action.  Returns the handle (or `none` for NACK) and
the updated state. -/
def __start_remote_fault_handling (st : CohState) (pfn : Nat) (is_write : Bool)
    (remote_acked_fault_count : Int) (remote_node_id local_node_id : Int) :
    Option FaultHandle × CohState :=
  match st.faults.find? (fun h => h.original_pfn_val = pfn) with
  | some fh =>
    if fh.fh_flags.remote then (none, st)
    else if has_lower_priority fh is_write remote_acked_fault_count remote_node_id
        local_node_id st.local_acked_fault_count then (none, st)
    else
      let fh' := if is_write then { fh with fh_flags := { fh.fh_flags with retry := true } } else fh
      (some fh', { st with faults := replace_handle st.faults pfn fh' })
  | none =>
    if !st.alloc_ok then (none, st)
    else
      let f := check_metadata { fh_flags_cleared with remote := true, needwrite := is_write }
        (st.meta pfn)
      let fh : FaultHandle := ⟨pfn, f, set_fh_action f, false⟩
      (some fh, { st with faults := fh :: st.faults })

/-- Source `__finish_remote_fault_handling`: wake an attached local waiter (clearing
the completion pointer) when one exists; otherwise delete and free a REMOTE
handle.  Returns whether the handle was freed. -/
def __finish_remote_fault_handling (st : CohState) (fh : FaultHandle) : Bool × CohState :=
  if fh.hasComplete then
    (false, { st with faults := replace_handle st.faults fh.original_pfn_val
                       { fh with hasComplete := false } })
  else if fh.fh_flags.remote then
    (true, { st with faults := st.faults.erase fh })
  else (false, st)

/-- Source `update_metadata`: the MSI flag transition on the original page — remote
write clears both bits (→ I), remote read downgrades to S, local write sets
MODIFIED (→ M), local read sets SHARED (→ S). -/
def update_metadata (f : FHFlags) (m : PageMeta) : PageMeta :=
  if f.remote then
    if f.needwrite then { m with pageModified := false, pageShared := false }
    else { m with pageShared := true, pageModified := false }
  else
    if f.needwrite then { m with pageModified := true, pageShared := false }
    else { m with pageShared := true, pageModified := false }

/-- Apply `update_metadata` to the metadata of page `pfn` in the engine
state. -/
def update_meta_at (st : CohState) (pfn : Nat) (f : FHFlags) : CohState :=
  { st with meta := fun p => if p = pfn then update_metadata f (st.meta p) else st.meta p }

/-- Source `SetPageCoherence` on page `pfn`. -/
def set_page_coherence (st : CohState) (pfn : Nat) : CohState :=
  { st with meta := fun p => if p = pfn then { st.meta p with pageCoherence := true }
                             else st.meta p }

/-- Source `PAGE_SHIFT` = 12. -/
def PAGE_SHIFT : Nat := 12

/-- Source `PMD_ORDER` on the x86-64 target: `PMD_SHIFT - PAGE_SHIFT = 9`. -/
def PMD_ORDER : Int := 9

/-- Source `WAIT_STATION_THRESHOLD` (wait_station.h): 0.8 of `MAX_WAIT_STATIONS`. -/
def WAIT_STATION_THRESHOLD : Int := 52428

/-- Source `VM_FAULT_RETRY` (0x000400): the mapping layer's re-drive signal. -/
def VM_FAULT_RETRY : Int := 1024

/-- Source `__start_local_fault_handling`, observed at the point where the caller
regains control: when a handle for the page already exists the fault slept on
a private completion, and the branch below describes the wake-up — a handle
left with NEEDWRITE set is deleted and `NULL` (`none`) is returned so the
fault is re-driven, otherwise the woken fault takes the handle over, clears
every flag, records the write intent, re-probes the metadata and picks the
action; when no handle exists a fresh one is allocated (`none` when the
allocation fails) and initialized the same way. -/
def __start_local_fault_handling (st : CohState) (pfn : Nat) (is_write : Bool) :
    Option FaultHandle × CohState :=
  match st.faults.find? (fun h => h.original_pfn_val = pfn) with
  | some fh =>
    if fh.fh_flags.needwrite then
      (none, { st with faults := st.faults.erase fh })
    else
      let f := check_metadata { fh_flags_cleared with needwrite := is_write } (st.meta pfn)
      let fh' := { fh with fh_flags := f, fh_action := set_fh_action f }
      (some fh', { st with faults := replace_handle st.faults pfn fh' })
  | none =>
    if !st.alloc_ok then (none, st)
    else
      let f := check_metadata { fh_flags_cleared with needwrite := is_write } (st.meta pfn)
      let fh : FaultHandle := ⟨pfn, f, set_fh_action f, false⟩
      (some fh, { st with faults := fh :: st.faults })

/-- Source `__finish_local_fault_handling`: read the RETRY flag, delete the handle
and free it; the flag tells the caller to re-drive. -/
def __finish_local_fault_handling (st : CohState) (fh : FaultHandle) : Bool × CohState :=
  (fh.fh_flags.retry, { st with faults := st.faults.erase fh })

/-- The environment of a local fault: the value `broadcast_message_and_wait`
hands back for the transaction that fires (0, `-EAGAIN` on a NACK, or another
error), the garbage value of `ret` in `issue_page_coherence_transaction` when
neither broadcast fires (the C variable is read uninitialized there), and the
result of `fetch_page_replica`. -/
structure LocalEnv where
  wait_result : Int
  ret_uninit : Int
  fetch_result : Int
deriving Repr, DecidableEq

/-- Source `issue_page_coherence_transaction`: broadcast FETCH for an I→S
transition (`!NEEDWRITE && !SHARED && !MODIFIED`), or INVALIDATE for a write
transition (`NEEDWRITE && !MODIFIED`), waiting for all ACKs; propagate
`-EAGAIN` on a NACK and other errors as they are; on success refetch the
replica contents when REPLICATED but not SHARED.  Also returns the list of
broadcast message types issued. -/
def issue_page_coherence_transaction (fh : FaultHandle) (env : LocalEnv) :
    Int × List Int :=
  let f := fh.fh_flags
  let step1 : Int × List Int :=
    if !f.needwrite && !f.shared && !f.modified then (env.wait_result, [SWMC_KMSG_TYPE_FETCH])
    else (env.ret_uninit, [])
  let step2 : Int × List Int :=
    if f.needwrite && !f.modified then (env.wait_result, step1.2 ++ [SWMC_KMSG_TYPE_INVALIDATE])
    else step1
  if step2.1 = -11 then (-11, step2.2)
  else if step2.1 ≠ 0 then (step2.1, step2.2)
  else if f.replicated && !f.shared then
    (if env.fetch_result ≠ 0 then env.fetch_result else 0, step2.2)
  else (0, step2.2)

/-- What a run of `page_coherence_fault` did: `crashNullDeref` marks the
dereference of the NULL fault handle (`SetPageCoherence(fh->original_page)`
runs before the `!fh` check), otherwise the `int` the function returns. -/
inductive FaultOutcome where
  | crashNullDeref : FaultOutcome
  | ret : Int → FaultOutcome
deriving Repr, DecidableEq

/-- Result record of `page_coherence_fault`: the outcome, the coherence
messages broadcast on behalf of this fault, whether `map_vpn_to_pfn`
redirected the mapping to the replica, and the finishing engine state. -/
structure LocalFaultOut where
  outcome : FaultOutcome
  broadcasts : List Int
  mapped_replica : Bool
  state : CohState

/-- The tail of `page_coherence_fault` after transaction issuance: apply
`update_metadata` when the action asks for it, map the replica when
REPLICATED, then finish — `VM_FAULT_RETRY` when the handle was marked RETRY,
0 otherwise. -/
def page_coherence_fault_tail (st : CohState) (fh : FaultHandle) (bc : List Int) :
    LocalFaultOut :=
  let st1 := if fh.fh_action &&& FH_ACTION_UPDATE_METADATA ≠ 0 then
    update_meta_at st fh.original_pfn_val fh.fh_flags else st
  let mapped := fh.fh_flags.replicated
  let fin := __finish_local_fault_handling st1 fh
  if fin.1 then ⟨.ret VM_FAULT_RETRY, bc, mapped, fin.2⟩
  else ⟨.ret 0, bc, mapped, fin.2⟩

/-- Source `page_coherence_fault`: the local entry point.  Skips pages outside the
shared window, meta files and the disabled state; starts (or attaches to)
the fault handle — dereferencing the NULL handle when the start returns
`NULL`; bails out with `-EINVAL` on the invalid action; issues the
synchronous transaction when the action requests one or the in-flight count
exceeds `WAIT_STATION_THRESHOLD`, returning its error verbatim on failure;
otherwise issues the asynchronous FETCH when requested; then runs the common
tail.  `filename_is_meta` abstracts the `.log` / `.superblock` filename
tests. -/
def page_coherence_fault (st : CohState) (env : LocalEnv) (pfn : Nat)
    (write : Bool) (filename_is_meta : Bool) : LocalFaultOut :=
  if st.page_coherence_enabled = false then ⟨.ret 0, [], false, st⟩
  else if pfn < st.cxl_hdm_base >>> PAGE_SHIFT then ⟨.ret 0, [], false, st⟩
  else if filename_is_meta then ⟨.ret 0, [], false, st⟩
  else
    let start := __start_local_fault_handling st pfn write
    match start.1 with
    | none => ⟨.crashNullDeref, [], false, start.2⟩
    | some fh =>
      let st2 := set_page_coherence start.2 pfn
      if fh.fh_action = FH_ACTION_INVALID then
        let fin := __finish_local_fault_handling st2 fh
        ⟨.ret (-22), [], false, fin.2⟩
      else if fh.fh_action &&& FH_ACTION_ISSUE_SYNC_TRANSACTION ≠ 0 ∨
          WAIT_STATION_THRESHOLD < st.nr_in_flight_transactions then
        let tr := issue_page_coherence_transaction fh env
        if tr.1 ≠ 0 then
          let fin := __finish_local_fault_handling st2 fh
          ⟨.ret tr.1, tr.2, false, fin.2⟩
        else
          let st3 := { st2 with nr_in_flight_transactions := st2.nr_in_flight_transactions + 1 }
          page_coherence_fault_tail st3 fh tr.2
      else if fh.fh_action &&& FH_ACTION_ISSUE_ASYNC_TRANSACTION ≠ 0 then
        let st3 := { st2 with nr_in_flight_transactions := st2.nr_in_flight_transactions + 1 }
        page_coherence_fault_tail st3 fh [SWMC_KMSG_TYPE_FETCH]
      else
        page_coherence_fault_tail st2 fh []

/-- Result record of `swmc_kmsg_handle_fetch_or_invalidate`: the reply
message types unicast back to the sender, the remote-side work bits actually
dispatched (WRITEBACK / INVALIDATE / UPDATE_METADATA), the returned `int`,
and the finishing engine state. -/
structure RemoteHandlerOut where
  replies : List Int
  works : List Nat
  ret : Int
  state : CohState

/-- Source `swmc_kmsg_handle_fetch_or_invalidate`: the remote entry point.  A type
other than FETCH / INVALIDATE or a page order other than 0 / `PMD_ORDER`
returns `-EINVAL` without any reply; a NACK from
`__start_remote_fault_handling` answers with the matching NACK type; a handle
whose action is empty answers with the matching ACK and finishes; otherwise
the WRITEBACK / INVALIDATE / UPDATE_METADATA work runs per the action bits,
the matching ACK is sent, and the handle is finished when it is still in the
table. -/
def swmc_kmsg_handle_fetch_or_invalidate (st : CohState) (msg : KMsg) : RemoteHandlerOut :=
  if ¬(msg.header.type = SWMC_KMSG_TYPE_FETCH ∨ msg.header.type = SWMC_KMSG_TYPE_INVALIDATE) then
    ⟨[], [], -22, st⟩
  else if msg.payload.page_order = 0 ∨ msg.payload.page_order = PMD_ORDER then
    let original_pfn := (st.cxl_hdm_base + msg.payload.cxl_hdm_offset) >>> PAGE_SHIFT
    let is_write : Bool := msg.header.type = SWMC_KMSG_TYPE_INVALIDATE
    let start := __start_remote_fault_handling st original_pfn is_write
      msg.payload.acked_fault_count msg.header.from_nid msg.header.to_nid
    match start.1 with
    | none =>
      ⟨[if is_write then SWMC_KMSG_TYPE_INVALIDATE_NACK else SWMC_KMSG_TYPE_FETCH_NACK],
        [], 0, start.2⟩
    | some fh =>
      if fh.fh_action = 0 then
        let fin := __finish_remote_fault_handling start.2 fh
        ⟨[if is_write then SWMC_KMSG_TYPE_INVALIDATE_ACK else SWMC_KMSG_TYPE_FETCH_ACK],
          [], 0, fin.2⟩
      else
        let works :=
          (if fh.fh_action &&& FH_ACTION_WRITEBACK ≠ 0 then [FH_ACTION_WRITEBACK] else []) ++
          (if fh.fh_action &&& FH_ACTION_INVALIDATE ≠ 0 then [FH_ACTION_INVALIDATE] else []) ++
          (if fh.fh_action &&& FH_ACTION_UPDATE_METADATA ≠ 0 then [FH_ACTION_UPDATE_METADATA]
           else [])
        let st2 := if fh.fh_action &&& FH_ACTION_UPDATE_METADATA ≠ 0 then
          update_meta_at start.2 original_pfn fh.fh_flags else start.2
        let reply := if is_write then SWMC_KMSG_TYPE_INVALIDATE_ACK else SWMC_KMSG_TYPE_FETCH_ACK
        if (st2.faults.find? (fun h => h.original_pfn_val = original_pfn)).isSome then
          let fin := __finish_remote_fault_handling st2 fh
          ⟨[reply], works, 0, fin.2⟩
        else
          ⟨[reply], works, 0, st2⟩
  else ⟨[], [], -22, st⟩

/- ===================== Concrete instances used by witnesses and counterexamples ===================== -/

/-- A well-formed FETCH message (valid header fields, order 0). -/
def c7_msg : KMsg := ⟨⟨0, 1, 1, 0⟩, ⟨4096, 0, 0⟩⟩

/-- A ring window already holding `CXL_KMSG_RBUF_SIZE - 1` messages. -/
def c7_win : CxlKmsgWindow := ⟨65535, 0, true, fun _ => c7_msg⟩

/-- A histogram with two pages in bucket 1 and nothing else. -/
def c9_hist : Nat → Nat := fun i => if i = 1 then 2 else 0

/- ===================== C7 ===================== -/

/-- An otherwise-idle original page (no replica, contents `[1,2,3]`) paired
with the replica slot the allocator will fill. -/
def c8_state : ReplicaPairState :=
  ⟨0, some 7, 3, false, false, [1, 2, 3], true,
   0, false, none, 0, false, false, [], false, false, false, false⟩

/-- A local write-fault handle for page 7 (flags: NEEDWRITE only). -/
def c2_handle : FaultHandle :=
  ⟨7, ⟨false, false, false, true, false, false⟩, 0x16, false⟩

/-- Engine state holding only `c2_handle`, with local acked-fault count 5. -/
def c2_state : CohState :=
  ⟨[c2_handle], fun _ => ⟨false, false, false, 0⟩, 5, 0, true, true, 0⟩

/-- Engine state with no handles and blank metadata. -/
def c1_state : CohState :=
  ⟨[], fun _ => ⟨false, false, false, 0⟩, 0, 0, true, true, 0⟩

/-- A FETCH message whose payload carries page order 5 (neither 0 nor
`PMD_ORDER`). -/
def c1_bad_order_msg : KMsg := ⟨⟨SWMC_KMSG_TYPE_FETCH, 1, 1, 0⟩, ⟨4096, 5, 0⟩⟩

/-- A well-formed FETCH message with page order 0. -/
def c1_good_msg : KMsg := ⟨⟨SWMC_KMSG_TYPE_FETCH, 1, 1, 0⟩, ⟨4096, 0, 0⟩⟩

/-- Page metadata in the S-stale state (MODIFIED and SHARED set, no replica). -/
def c3_meta : PageMeta := ⟨true, true, false, 0⟩

/-- Engine state whose every page is S-stale, with no in-flight handles. -/
def c3_state : CohState := ⟨[], fun _ => c3_meta, 0, 0, true, true, 0⟩

/-- A quiescent local environment (all ACKs, no garbage, fetch succeeds). -/
def c3_env : LocalEnv := ⟨0, 0, 0⟩

/-- Engine state with all-clear metadata (page in I) and no handles. -/
def c4_state : CohState := ⟨[], fun _ => ⟨false, false, false, 0⟩, 0, 0, true, true, 0⟩

/-- Environment in which the synchronous wait collapses to a NACK. -/
def c4_env : LocalEnv := ⟨-11, 0, 0⟩

/-- An in-flight write-fault handle for page 5 (NEEDWRITE set), as a waiter
would observe it at wake-up. -/
def c5_handle : FaultHandle :=
  ⟨5, ⟨false, false, false, true, false, false⟩, 0x16, false⟩

/-- Engine state in which page 5 already has the NEEDWRITE handle. -/
def c5_state : CohState :=
  ⟨[c5_handle], fun _ => ⟨false, false, false, 0⟩, 0, 0, true, true, 0⟩

/-- Page metadata with MODIFIED, SHARED and a replica pointer set. -/
def c6_meta : PageMeta := ⟨true, true, false, 8⟩

/-- Engine state in which every page carries the invalid {R,M,S} metadata. -/
def c6_state : CohState := ⟨[], fun _ => c6_meta, 0, 0, true, true, 0⟩

/-- A well-formed INVALIDATE message for offset 0x1000 (page order 0). -/
def c6_msg : KMsg := ⟨⟨SWMC_KMSG_TYPE_INVALIDATE, 1, 1, 0⟩, ⟨4096, 0, 0⟩⟩

/-- Quiescent local environment for the C5 scenario. -/
def c5_env : LocalEnv := ⟨0, 0, 0⟩

/-- Quiescent local environment for the C6 scenario. -/
def c6_env : LocalEnv := ⟨0, 0, 0⟩

/- ===================== Theorems ===================== -/

/- ===================== Concrete inputs used by witnesses and counterexamples ===================== -/

/-- C7: when the ring already holds `capacity - 1` messages
(`head - tail = CXL_KMSG_RBUF_SIZE - 1`), `win_put` of a valid message
returns `-EAGAIN` (Dropped) and leaves head, tail and every slot unchanged. -/
theorem win_put_full_drops_and_preserves (win : CxlKmsgWindow) (msg : KMsg)
    (hvalid : __validate_kmsg msg = 0)
    (hfull : win.head - win.tail = CXL_KMSG_RBUF_SIZE - 1) :
    win_put win msg = (-11, win) ∧
    (win_put win msg).2.head = win.head ∧
    (win_put win msg).2.tail = win.tail ∧
    ∀ i, (win_put win msg).2.buffer i = win.buffer i := by
  have h1 : win_put win msg = (-11, win) := by
    unfold win_put
    simp [hvalid, win_inuse, hfull]
  exact ⟨h1, by rw [h1], by rw [h1], fun i => by rw [h1]⟩

/-- C7 witness: the theorem applied at a concrete full ring. -/
theorem win_put_full_drops_witness :
    __validate_kmsg c7_msg = 0 ∧
    c7_win.head - c7_win.tail = CXL_KMSG_RBUF_SIZE - 1 ∧
    win_put c7_win c7_msg = (-11, c7_win) :=
  ⟨by decide, by decide,
    (win_put_full_drops_and_preserves c7_win c7_msg (by decide) (by decide)).1⟩

/- ===================== C9 ===================== -/

/-- Cells above the loop counter are untouched. -/
theorem cool_upto_untouched (h : Nat → Nat) (k j : Nat) (hj : k < j) :
    cool_upto h k j = h j := by
  induction k with
  | zero => rfl
  | succ n ih =>
    show cool_step (cool_upto h n) (n + 1) j = h j
    unfold cool_step
    have h1 : j ≠ n + 1 - 1 := by omega
    have h2 : j ≠ n + 1 := by omega
    simp only [h1, h2, if_false]
    exact ih (by omega)

/-- After iteration `k` the cell `k` holds 0. -/
theorem cool_upto_last_zero (h : Nat → Nat) (k : Nat) (hk : 1 ≤ k) :
    cool_upto h k k = 0 := by
  cases k with
  | zero => omega
  | succ n =>
    show cool_step (cool_upto h n) (n + 1) (n + 1) = 0
    unfold cool_step
    have h1 : n + 1 ≠ n + 1 - 1 := by omega
    simp [h1]

/-- Bucket 0 accumulates buckets 0 and 1 of the original histogram. -/
theorem cool_upto_head (h : Nat → Nat) (k : Nat) (hk : 1 ≤ k) :
    cool_upto h k 0 = h 0 + h 1 := by
  induction k with
  | zero => omega
  | succ n ih =>
    show cool_step (cool_upto h n) (n + 1) 0 = h 0 + h 1
    unfold cool_step
    rcases Nat.eq_zero_or_pos n with h0 | hpos
    · subst h0
      simp [cool_upto]
    · have h1 : (0 : Nat) ≠ n + 1 - 1 := by omega
      have h2 : (0 : Nat) ≠ n + 1 := by omega
      simp only [h1, h2, if_false]
      exact ih hpos

/-- Buckets strictly below the loop counter (and above 0) hold the next
higher original bucket. -/
theorem cool_upto_shift (h : Nat → Nat) (k j : Nat) (hj1 : 1 ≤ j) (hjk : j < k) :
    cool_upto h k j = h (j + 1) := by
  induction k with
  | zero => omega
  | succ n ih =>
    show cool_step (cool_upto h n) (n + 1) j = h (j + 1)
    unfold cool_step
    rcases Nat.lt_or_ge j n with hlt | hge
    · have h1 : j ≠ n + 1 - 1 := by omega
      have h2 : j ≠ n + 1 := by omega
      simp only [h1, h2, if_false]
      exact ih (by omega)
    · have hj : j = n := by omega
      subst hj
      have h1 : j = j + 1 - 1 := by omega
      rw [if_pos h1]
      have hz : cool_upto h j (j + 1 - 1) = 0 := by
        have : j + 1 - 1 = j := by omega
        rw [this]
        exact cool_upto_last_zero h j hj1
      rw [hz, cool_upto_untouched h j (j + 1) (by omega)]
      omega

/-- C9 counterexample: the cooling step does not halve bucket 0 of the
concrete histogram `c9_hist` (it becomes 2, not 0/2 = 0). -/
theorem cooling_is_not_halving :
    ¬ cool_down_histogram c9_hist 0 = c9_hist 0 / 2 := by decide

/-- C9 (amended): the cooling step at the end of a replication tick shifts
the whole histogram down one bucket — bucket 0 accumulates buckets 0 and 1,
bucket `j` (1 ≤ j ≤ 30) receives bucket `j + 1`, bucket 31 becomes 0. -/
theorem cool_down_histogram_shifts (h : Nat → Nat) :
    cool_down_histogram h 0 = h 0 + h 1 ∧
    (∀ j, 1 ≤ j → j ≤ 30 → cool_down_histogram h j = h (j + 1)) ∧
    cool_down_histogram h 31 = 0 :=
  ⟨cool_upto_head h 31 (by omega),
   fun j hj1 hj30 => cool_upto_shift h 31 j hj1 (by omega),
   cool_upto_last_zero h 31 (by omega)⟩

/-- C9 witness: the amended characterization applied to the concrete
histogram `c9_hist` at bucket 5. -/
theorem cool_down_histogram_shifts_witness :
    1 ≤ 5 ∧ 5 ≤ 30 ∧ cool_down_histogram c9_hist 5 = c9_hist 6 :=
  ⟨by decide, by decide,
    (cool_down_histogram_shifts c9_hist).2.1 5 (by decide) (by decide)⟩

/- ===================== C10 ===================== -/

/-- C10: on a page whose aged access count is 0 (private word 0, current
monitoring age 0) the sampling update computes `old_msb_index = fls64 0 - 1 =
-1` and decrements `hist[-1]`: the histogram access list is `[-1, 0]`, which
is not contained in the valid index range `0 ≤ i < 32` of the 32-entry
array. -/
theorem sampled_zero_count_hist_underflow :
    (handle_sampled_address_update 0 0 10).hist_accesses = [-1, 0] ∧
    ¬ (∀ i ∈ (handle_sampled_address_update 0 0 10).hist_accesses, 0 ≤ i ∧ i < 32) := by
  decide

/- ===================== C8 ===================== -/

/-- C8: `create_page_replica` immediately followed by `flush_page_replica`
on an otherwise-idle page (no replica yet, not stale-shared, no intervening
write to either page) succeeds in both steps, leaves the original's contents
byte-for-byte unchanged, leaves the replica on neither LRU list, and leaves
the original with no replica pointer (`get_replica_opt` returns nothing). -/
theorem create_then_flush_roundtrip (s : ReplicaPairState) (rep_addr : Nat)
    (hidle : s.orig_priv = 0)
    (hnotstale : ¬ (s.orig_modified = true ∧ s.orig_shared = true))
    (halign : rep_addr % 4 = 0) :
    (create_page_replica s rep_addr).1 = 0 ∧
    (flush_page_replica (create_page_replica s rep_addr).2).1 = 0 ∧
    (flush_page_replica (create_page_replica s rep_addr).2).2.orig_data = s.orig_data ∧
    (flush_page_replica (create_page_replica s rep_addr).2).2.rep_on_active = false ∧
    (flush_page_replica (create_page_replica s rep_addr).2).2.rep_on_inactive = false ∧
    get_replica_opt (flush_page_replica (create_page_replica s rep_addr).2).2.orig_priv
      = none := by
  have hfin : swmc_clear_tag (swmc_clear_tag rep_addr +
      (SWMC_TAG_REPLICA_SELF + SWMC_TAG_ACCESS)) + SWMC_TAG_ACCESS = rep_addr + 1 := by
    unfold swmc_clear_tag SWMC_TAG_REPLICA_SELF SWMC_TAG_ACCESS
    omega
  have hnone : get_replica_opt (rep_addr + 1) = none := by
    unfold get_replica_opt SWMC_TAG_PTR
    rw [if_neg (by omega), if_neg (by omega)]
  obtain ⟨op, om, oi, omod, osh, od, opm, rp, rm, rmap, ri, rmod, rsh, rd, ra, rin, rpm, rf⟩ := s
  simp only at hidle hnotstale
  subst hidle
  have hms : (omod && osh) = false := by
    cases omod <;> cases osh <;> simp_all
  unfold create_page_replica flush_page_replica writeback_page_replica
  simp only [get_replica_opt, if_pos rfl, Option.isSome_none, Bool.false_eq_true, if_false,
    hms, Bool.false_and, Bool.and_false]
  cases om <;>
    simp only [Option.isSome_none, Option.isSome_some, Bool.false_eq_true, if_false, if_true,
      ite_true, ite_false] <;>
    simp [hfin, hnone, SWMC_TAG_PTR] <;> omega

/-- C8 witness: the round trip at a concrete idle page and an aligned
replica address. -/
theorem create_then_flush_roundtrip_witness :
    c8_state.orig_priv = 0 ∧ (64 : Nat) % 4 = 0 ∧
    (flush_page_replica (create_page_replica c8_state 64).2).2.orig_data =
      c8_state.orig_data ∧
    get_replica_opt (flush_page_replica (create_page_replica c8_state 64).2).2.orig_priv
      = none :=
  ⟨by decide, by decide,
    (create_then_flush_roundtrip c8_state 64 (by decide) (by decide) (by decide)).2.2.1,
    (create_then_flush_roundtrip c8_state 64 (by decide) (by decide) (by decide)).2.2.2.2.2⟩

/- ===================== C2 ===================== -/

/-- Helper: `has_lower_priority` between two write faults reduces to the acked-count
comparison, with the node id breaking ties. -/
theorem has_lower_priority_write_write (fh : FaultHandle) (racked rnid lnid l : Int)
    (hw : fh.fh_flags.needwrite = true) :
    has_lower_priority fh true racked rnid lnid l =
      decide (l < racked ∨ (racked = l ∧ lnid < rnid)) := by
  unfold has_lower_priority
  rw [hw]
  rcases lt_trichotomy racked l with h | h | h <;>
    by_cases hn : lnid < rnid <;>
      simp [h, hn] <;> omega

/-- C2: when an INVALIDATE (remote write) arrives for a page whose handle
belongs to an in-progress local write fault, `__start_remote_fault_handling`
NACKs exactly when the remote sender's acked-fault count is strictly higher
than the local count, or the counts are equal and the local node id is lower
than the remote's; otherwise it ACKs and the returned (updated) local handle
carries the RETRY mark.  With equal counts the lower node id wins. -/
theorem remote_write_vs_local_write_priority (st : CohState) (pfn : Nat)
    (fh : FaultHandle) (racked rnid lnid : Int)
    (hfind : st.faults.find? (fun h => h.original_pfn_val = pfn) = some fh)
    (hrem : fh.fh_flags.remote = false)
    (hw : fh.fh_flags.needwrite = true) :
    ((__start_remote_fault_handling st pfn true racked rnid lnid).1 = none ↔
      st.local_acked_fault_count < racked ∨
        (racked = st.local_acked_fault_count ∧ lnid < rnid)) ∧
    ∀ fh', (__start_remote_fault_handling st pfn true racked rnid lnid).1 = some fh' →
      fh'.fh_flags.retry = true := by
  unfold __start_remote_fault_handling
  rw [hfind]
  simp only [hrem, Bool.false_eq_true, if_false,
    has_lower_priority_write_write fh racked rnid lnid st.local_acked_fault_count hw]
  by_cases hc : st.local_acked_fault_count < racked ∨
      (racked = st.local_acked_fault_count ∧ lnid < rnid)
  · simp [hc]
  · rw [show decide (st.local_acked_fault_count < racked ∨
        (racked = st.local_acked_fault_count ∧ lnid < rnid)) = false from decide_eq_false hc]
    simp only [Bool.false_eq_true, if_false]
    refine ⟨by simp [hc], ?_⟩
    intro fh' h
    simp only [Option.some.injEq] at h
    subst h
    rfl

/-- C2 witness: equal acked-fault counts (both 5) and local id 0 < remote
id 1, so the remote write is NACKed — the lower node id wins. -/
theorem remote_write_vs_local_write_priority_witness :
    c2_state.faults.find? (fun h => h.original_pfn_val = 7) = some c2_handle ∧
    (__start_remote_fault_handling c2_state 7 true 5 1 0).1 = none :=
  ⟨by decide,
    (remote_write_vs_local_write_priority c2_state 7 c2_handle 5 1 0
      (by decide) (by decide) (by decide)).1.mpr (Or.inr ⟨by decide, by decide⟩)⟩

/- ===================== C1 ===================== -/

/-- C1 counterexample: a FETCH whose page order is neither 0 nor `PMD_ORDER`
is dropped with `-EINVAL` and no reply at all — not "exactly one reply". -/
theorem bad_page_order_gets_no_reply :
    (swmc_kmsg_handle_fetch_or_invalidate c1_state c1_bad_order_msg).replies = [] ∧
    (swmc_kmsg_handle_fetch_or_invalidate c1_state c1_bad_order_msg).ret = -22 := by
  decide

/-- C1 (amended): every FETCH / INVALIDATE whose page order is 0 or
`PMD_ORDER` gets exactly one reply, of the matching class (FETCH_ACK /
FETCH_NACK for FETCH, INVALIDATE_ACK / INVALIDATE_NACK for INVALIDATE);
a message with any other page order is dropped without a reply. -/
theorem remote_handler_replies_exactly_once (st : CohState) (msg : KMsg)
    (hty : msg.header.type = SWMC_KMSG_TYPE_FETCH ∨
      msg.header.type = SWMC_KMSG_TYPE_INVALIDATE)
    (hord : msg.payload.page_order = 0 ∨ msg.payload.page_order = PMD_ORDER) :
    ∃ r, (swmc_kmsg_handle_fetch_or_invalidate st msg).replies = [r] ∧
      (msg.header.type = SWMC_KMSG_TYPE_FETCH →
        r = SWMC_KMSG_TYPE_FETCH_ACK ∨ r = SWMC_KMSG_TYPE_FETCH_NACK) ∧
      (msg.header.type = SWMC_KMSG_TYPE_INVALIDATE →
        r = SWMC_KMSG_TYPE_INVALIDATE_ACK ∨ r = SWMC_KMSG_TYPE_INVALIDATE_NACK) := by
  rcases hty with hF | hI
  · have hreplies :
        (swmc_kmsg_handle_fetch_or_invalidate st msg).replies =
          [SWMC_KMSG_TYPE_FETCH_ACK] ∨
        (swmc_kmsg_handle_fetch_or_invalidate st msg).replies =
          [SWMC_KMSG_TYPE_FETCH_NACK] := by
      unfold swmc_kmsg_handle_fetch_or_invalidate
      rw [if_neg (not_not_intro (Or.inl hF)), if_pos hord]
      simp only [hF, show (decide (SWMC_KMSG_TYPE_FETCH = SWMC_KMSG_TYPE_INVALIDATE)) = false
        from by decide]
      split
      · simp
      · rename_i fh hfh
        by_cases ha : fh.fh_action = 0
        · simp [ha]
        · simp [ha, apply_ite RemoteHandlerOut.replies]
    rcases hreplies with h | h
    · exact ⟨_, h, fun _ => Or.inl rfl, fun hI' => absurd (hF ▸ hI') (by decide)⟩
    · exact ⟨_, h, fun _ => Or.inr rfl, fun hI' => absurd (hF ▸ hI') (by decide)⟩
  · have hreplies :
        (swmc_kmsg_handle_fetch_or_invalidate st msg).replies =
          [SWMC_KMSG_TYPE_INVALIDATE_ACK] ∨
        (swmc_kmsg_handle_fetch_or_invalidate st msg).replies =
          [SWMC_KMSG_TYPE_INVALIDATE_NACK] := by
      unfold swmc_kmsg_handle_fetch_or_invalidate
      rw [if_neg (not_not_intro (Or.inr hI)), if_pos hord]
      simp only [hI, show (decide (SWMC_KMSG_TYPE_INVALIDATE = SWMC_KMSG_TYPE_INVALIDATE)) = true
        from by decide]
      split
      · simp
      · rename_i fh hfh
        by_cases ha : fh.fh_action = 0
        · simp [ha]
        · simp [ha, apply_ite RemoteHandlerOut.replies]
    rcases hreplies with h | h
    · exact ⟨_, h, fun hF' => absurd (hI ▸ hF') (by decide), fun _ => Or.inl rfl⟩
    · exact ⟨_, h, fun hF' => absurd (hI ▸ hF') (by decide), fun _ => Or.inr rfl⟩

/-- C1 witness: the amended theorem at a concrete FETCH with page order 0. -/
theorem remote_handler_replies_exactly_once_witness :
    ∃ r, (swmc_kmsg_handle_fetch_or_invalidate c1_state c1_good_msg).replies = [r] ∧
      (c1_good_msg.header.type = SWMC_KMSG_TYPE_FETCH →
        r = SWMC_KMSG_TYPE_FETCH_ACK ∨ r = SWMC_KMSG_TYPE_FETCH_NACK) ∧
      (c1_good_msg.header.type = SWMC_KMSG_TYPE_INVALIDATE →
        r = SWMC_KMSG_TYPE_INVALIDATE_ACK ∨ r = SWMC_KMSG_TYPE_INVALIDATE_NACK) :=
  remote_handler_replies_exactly_once c1_state c1_good_msg (Or.inl (by decide))
    (Or.inl (by decide))

/- ===================== helper: fresh local handle ===================== -/

/-- Helper: `__start_local_fault_handling` on a page with no in-flight handle and a
successful allocation: a fresh handle with the probed flags and table action. -/
theorem start_local_fresh (st : CohState) (pfn : Nat) (is_write : Bool)
    (hfind : st.faults.find? (fun h => h.original_pfn_val = pfn) = none)
    (halloc : st.alloc_ok = true) :
    __start_local_fault_handling st pfn is_write =
      (some ⟨pfn, check_metadata { fh_flags_cleared with needwrite := is_write } (st.meta pfn),
        set_fh_action (check_metadata { fh_flags_cleared with needwrite := is_write }
          (st.meta pfn)), false⟩,
       { st with faults :=
          ⟨pfn, check_metadata { fh_flags_cleared with needwrite := is_write } (st.meta pfn),
            set_fh_action (check_metadata { fh_flags_cleared with needwrite := is_write }
              (st.meta pfn)), false⟩ :: st.faults }) := by
  unfold __start_local_fault_handling
  rw [hfind]
  simp [halloc]

/- ===================== C3 ===================== -/

/-- C3 trial -/
theorem sstale_read_is_mapped_without_fetch (st : CohState) (env : LocalEnv) (pfn : Nat)
    (hen : st.page_coherence_enabled = true)
    (hrange : ¬ pfn < st.cxl_hdm_base >>> PAGE_SHIFT)
    (hfind : st.faults.find? (fun h => h.original_pfn_val = pfn) = none)
    (halloc : st.alloc_ok = true)
    (hm : (st.meta pfn).pageModified = true)
    (hs : (st.meta pfn).pageShared = true)
    (hr : get_replica_opt (st.meta pfn).priv = none)
    (hift : ¬ WAIT_STATION_THRESHOLD < st.nr_in_flight_transactions) :
    set_fh_action (check_metadata { fh_flags_cleared with needwrite := false } (st.meta pfn)) =
      FH_ACTION_MAP_VPN_TO_PFN ∧
    (page_coherence_fault st env pfn false false).broadcasts = [] ∧
    (page_coherence_fault st env pfn false false).outcome = .ret 0 ∧
    (page_coherence_fault st env pfn false false).mapped_replica = false := by
  have hflags : check_metadata { fh_flags_cleared with needwrite := false } (st.meta pfn) =
      ⟨false, false, false, false, true, true⟩ := by
    unfold check_metadata
    rw [hm, hs, hr]
    rfl
  have hact : set_fh_action (⟨false, false, false, false, true, true⟩ : FHFlags) =
      FH_ACTION_MAP_VPN_TO_PFN := by decide
  have hc1 : ¬(FH_ACTION_MAP_VPN_TO_PFN = FH_ACTION_INVALID) := by decide
  have hc2 : FH_ACTION_MAP_VPN_TO_PFN &&& FH_ACTION_ISSUE_SYNC_TRANSACTION = 0 := by decide
  have hc3 : FH_ACTION_MAP_VPN_TO_PFN &&& FH_ACTION_ISSUE_ASYNC_TRANSACTION = 0 := by decide
  have hc4 : FH_ACTION_MAP_VPN_TO_PFN &&& FH_ACTION_UPDATE_METADATA = 0 := by decide
  refine ⟨by rw [hflags, hact], ?_, ?_, ?_⟩ <;>
  · unfold page_coherence_fault
    rw [if_neg (by simp [hen] : ¬(st.page_coherence_enabled = false)), if_neg hrange]
    rw [start_local_fresh st pfn false hfind halloc, hflags, hact]
    simp only [Bool.false_eq_true, if_false]
    rw [if_neg hc1, if_neg (by simp [hc2, hift]), if_neg (by simp [hc3])]
    unfold page_coherence_fault_tail __finish_local_fault_handling
    simp [hc4]

/- ===================== C3 counterexample + witness ===================== -/

/-- C3 counterexample: for a local read fault on an S-stale page the selected
action is plain MAP_VPN_TO_PFN — it does not include
`ISSUE_SYNC_TRANSACTION` — and the concrete fault completes with no FETCH
(no broadcast at all) before the page is served. -/
theorem sstale_read_action_has_no_sync_fetch :
    set_fh_action ⟨false, false, false, false, true, true⟩ = FH_ACTION_MAP_VPN_TO_PFN ∧
    set_fh_action ⟨false, false, false, false, true, true⟩ &&&
      FH_ACTION_ISSUE_SYNC_TRANSACTION = 0 ∧
    (page_coherence_fault c3_state c3_env 5 false false).broadcasts = [] ∧
    (page_coherence_fault c3_state c3_env 5 false false).outcome = .ret 0 := by
  decide

/-- C3 witness: the amended theorem at the concrete S-stale state. -/
theorem sstale_read_is_mapped_without_fetch_witness :
    c3_state.faults.find? (fun h => h.original_pfn_val = 5) = none ∧
    (c3_state.meta 5).pageModified = true ∧
    (page_coherence_fault c3_state c3_env 5 false false).broadcasts = [] :=
  ⟨by decide, by decide,
    (sstale_read_is_mapped_without_fetch c3_state c3_env 5 (by decide) (by decide)
      (by decide) (by decide) (by decide) (by decide) (by decide) (by decide)).2.1⟩

/- ===================== C4 ===================== -/

/-- Helper: `issue_page_coherence_transaction` propagates the `-EAGAIN` of a NACKed
wait whenever one of the two broadcasts actually fires. -/
theorem issue_transaction_nack (fh : FaultHandle) (env : LocalEnv)
    (hnack : env.wait_result = -11)
    (hfires : (fh.fh_flags.needwrite = false ∧ fh.fh_flags.shared = false ∧
        fh.fh_flags.modified = false) ∨
      (fh.fh_flags.needwrite = true ∧ fh.fh_flags.modified = false)) :
    (issue_page_coherence_transaction fh env).1 = -11 := by
  unfold issue_page_coherence_transaction
  rcases hfires with ⟨h1, h2, h3⟩ | ⟨h1, h2⟩
  · simp [h1, h2, h3, hnack]
  · simp [h1, h2, hnack]

/-- C4 (amended): a local fault that issues a synchronous coherence
transaction and gets a NACK returns the transaction's `-EAGAIN` error code
verbatim — not `VM_FAULT_RETRY`. -/
theorem sync_transaction_nack_propagates_eagain (st : CohState) (env : LocalEnv)
    (pfn : Nat) (write : Bool)
    (hen : st.page_coherence_enabled = true)
    (hrange : ¬ pfn < st.cxl_hdm_base >>> PAGE_SHIFT)
    (hfind : st.faults.find? (fun h => h.original_pfn_val = pfn) = none)
    (halloc : st.alloc_ok = true)
    (hact : ¬ set_fh_action (check_metadata { fh_flags_cleared with needwrite := write }
      (st.meta pfn)) = FH_ACTION_INVALID)
    (hsync : set_fh_action (check_metadata { fh_flags_cleared with needwrite := write }
        (st.meta pfn)) &&& FH_ACTION_ISSUE_SYNC_TRANSACTION ≠ 0 ∨
      WAIT_STATION_THRESHOLD < st.nr_in_flight_transactions)
    (hfires : (write = false ∧ (st.meta pfn).pageShared = false ∧
        (st.meta pfn).pageModified = false) ∨
      (write = true ∧ (st.meta pfn).pageModified = false))
    (hnack : env.wait_result = -11) :
    (page_coherence_fault st env pfn write false).outcome = .ret (-11) := by
  have htr : (issue_page_coherence_transaction
      ⟨pfn, check_metadata { fh_flags_cleared with needwrite := write } (st.meta pfn),
        set_fh_action (check_metadata { fh_flags_cleared with needwrite := write }
          (st.meta pfn)), false⟩ env).1 = -11 :=
    issue_transaction_nack _ env hnack hfires
  unfold page_coherence_fault
  rw [if_neg (by simp [hen] : ¬(st.page_coherence_enabled = false)), if_neg hrange]
  rw [start_local_fresh st pfn write hfind halloc]
  simp only [Bool.false_eq_true, if_false]
  rw [if_neg hact, if_pos hsync, if_pos (by simp [htr])]
  simp [htr]

/-- C4 counterexample: a concrete local write fault whose INVALIDATE
broadcast is NACKed makes `page_coherence_fault` return `-EAGAIN` (-11),
which is not the `VM_FAULT_RETRY` re-drive signal (1024). -/
theorem sync_nack_returns_eagain_not_retry :
    (page_coherence_fault c4_state c4_env 5 true false).outcome = .ret (-11) ∧
    (page_coherence_fault c4_state c4_env 5 true false).outcome ≠ .ret VM_FAULT_RETRY := by
  decide

/-- C4 witness: the amended theorem at the concrete NACKed write fault. -/
theorem sync_transaction_nack_witness :
    c4_env.wait_result = -11 ∧
    (page_coherence_fault c4_state c4_env 5 true false).outcome = .ret (-11) :=
  ⟨by decide,
    sync_transaction_nack_propagates_eagain c4_state c4_env 5 true (by decide) (by decide)
      (by decide) (by decide) (by decide) (Or.inl (by decide))
      (Or.inr ⟨by decide, by decide⟩) (by decide)⟩

/- ===================== C5 ===================== -/

/-- C5: a local fault that attaches to the existing handle for page 5 and
wakes with NEEDWRITE set gets `NULL` back from
`__start_local_fault_handling`; `page_coherence_fault` then dereferences the
NULL handle (`SetPageCoherence(fh->original_page)` precedes the `!fh` check)
instead of returning the `VM_FAULT_RETRY` re-drive signal. -/
theorem needwrite_wakeup_dereferences_null_handle :
    (__start_local_fault_handling c5_state 5 false).1 = none ∧
    (page_coherence_fault c5_state c5_env 5 false false).outcome = .crashNullDeref ∧
    (page_coherence_fault c5_state c5_env 5 false false).outcome ≠ .ret VM_FAULT_RETRY := by
  decide

/- ===================== C6 ===================== -/

/-- Helper: `__start_remote_fault_handling` on a page with no in-flight handle and a
successful allocation: a fresh REMOTE handle with the probed flags and table
action. -/
theorem start_remote_fresh (st : CohState) (pfn : Nat) (is_write : Bool)
    (racked rnid lnid : Int)
    (hfind : st.faults.find? (fun h => h.original_pfn_val = pfn) = none)
    (halloc : st.alloc_ok = true) :
    __start_remote_fault_handling st pfn is_write racked rnid lnid =
      (some ⟨pfn, check_metadata { fh_flags_cleared with remote := true, needwrite := is_write } (st.meta pfn), set_fh_action (check_metadata { fh_flags_cleared with remote := true, needwrite := is_write } (st.meta pfn)), false⟩,
       { st with faults := ⟨pfn, check_metadata { fh_flags_cleared with remote := true, needwrite := is_write } (st.meta pfn), set_fh_action (check_metadata { fh_flags_cleared with remote := true, needwrite := is_write } (st.meta pfn)), false⟩ :: st.faults }) := by
  unfold __start_remote_fault_handling
  rw [hfind]
  simp [halloc]

/-- C6: for the flag combination {REPLICATED, NEEDWRITE, MODIFIED, SHARED}
the action table yields the empty (invalid) action on both the local and the
remote side; a remote INVALIDATE that probes such a page dispatches none of
the work bits, still sends the (best-effort) INVALIDATE_ACK, and removes its
fault handle again; a local write fault on such a page dispatches nothing and
fails with `-EINVAL`. -/
theorem invalid_flag_cell_dispatches_nothing (st : CohState) (env : LocalEnv)
    (msg : KMsg) (pfn : Nat)
    (hpfn : (st.cxl_hdm_base + msg.payload.cxl_hdm_offset) >>> PAGE_SHIFT = pfn)
    (hty : msg.header.type = SWMC_KMSG_TYPE_INVALIDATE)
    (hord : msg.payload.page_order = 0)
    (hfind : st.faults.find? (fun h => h.original_pfn_val = pfn) = none)
    (halloc : st.alloc_ok = true)
    (hm : (st.meta pfn).pageModified = true)
    (hs : (st.meta pfn).pageShared = true)
    (hrep : (get_replica_opt (st.meta pfn).priv).isSome = true)
    (hen : st.page_coherence_enabled = true)
    (hrange : ¬ pfn < st.cxl_hdm_base >>> PAGE_SHIFT) :
    (∀ rt rm : Bool, set_fh_action ⟨rt, rm, true, true, true, true⟩ = FH_ACTION_INVALID) ∧
    (swmc_kmsg_handle_fetch_or_invalidate st msg).works = [] ∧
    (swmc_kmsg_handle_fetch_or_invalidate st msg).replies =
      [SWMC_KMSG_TYPE_INVALIDATE_ACK] ∧
    (swmc_kmsg_handle_fetch_or_invalidate st msg).state.faults = st.faults ∧
    (page_coherence_fault st env pfn true false).outcome = .ret (-22) ∧
    (page_coherence_fault st env pfn true false).broadcasts = [] := by
  have htable : ∀ rt rm : Bool, set_fh_action ⟨rt, rm, true, true, true, true⟩ =
      FH_ACTION_INVALID := by
    intro rt rm
    cases rt <;> cases rm <;> decide
  have hw : (decide (msg.header.type = SWMC_KMSG_TYPE_INVALIDATE)) = true := by
    rw [hty]
    decide
  have hflagsR : check_metadata { fh_flags_cleared with remote := true, needwrite := true } (st.meta pfn) = ⟨false, true, true, true, true, true⟩ := by
    unfold check_metadata
    rw [hm, hs, hrep]
    rfl
  have hflagsL : check_metadata { fh_flags_cleared with needwrite := true } (st.meta pfn) =
      ⟨false, false, true, true, true, true⟩ := by
    unfold check_metadata
    rw [hm, hs, hrep]
    rfl
  have hremote : swmc_kmsg_handle_fetch_or_invalidate st msg =
      ⟨[SWMC_KMSG_TYPE_INVALIDATE_ACK], [], 0, { st with faults := st.faults }⟩ := by
    unfold swmc_kmsg_handle_fetch_or_invalidate
    rw [if_neg (not_not_intro (Or.inr hty)), if_pos (Or.inl hord)]
    simp only [hw, hpfn, if_true]
    rw [start_remote_fresh st pfn true msg.payload.acked_fault_count msg.header.from_nid
      msg.header.to_nid hfind halloc]
    simp only [hflagsR, htable false true]
    simp [FH_ACTION_INVALID, __finish_remote_fault_handling, List.erase_cons_head]
  have hlocal :
      (page_coherence_fault st env pfn true false).outcome = .ret (-22) ∧
      (page_coherence_fault st env pfn true false).broadcasts = [] := by
    have hres : page_coherence_fault st env pfn true false =
        ⟨.ret (-22), [], false,
          (__finish_local_fault_handling (set_page_coherence { st with faults := ⟨pfn, ⟨false, false, true, true, true, true⟩, FH_ACTION_INVALID, false⟩ :: st.faults } pfn) ⟨pfn, ⟨false, false, true, true, true, true⟩, FH_ACTION_INVALID, false⟩).2⟩ := by
      unfold page_coherence_fault
      rw [if_neg (by simp [hen] : ¬(st.page_coherence_enabled = false)), if_neg hrange]
      rw [start_local_fresh st pfn true hfind halloc]
      simp only [Bool.false_eq_true, if_false]
      rw [hflagsL, htable false false]
      rw [if_pos rfl]
    rw [hres]
    exact ⟨rfl, rfl⟩
  exact ⟨htable, by rw [hremote], by rw [hremote], by rw [hremote], hlocal.1, hlocal.2⟩

/-- C6 witness: the theorem at a concrete {R,W,M,S} page. -/
theorem invalid_flag_cell_witness :
    (c6_state.meta 1).pageModified = true ∧
    (swmc_kmsg_handle_fetch_or_invalidate c6_state c6_msg).works = [] ∧
    (swmc_kmsg_handle_fetch_or_invalidate c6_state c6_msg).replies =
      [SWMC_KMSG_TYPE_INVALIDATE_ACK] :=
  ⟨by decide,
    (invalid_flag_cell_dispatches_nothing c6_state c6_env c6_msg 1 (by decide) (by decide)
      (by decide) (by decide) (by decide) (by decide) (by decide) (by decide) (by decide)
      (by decide)).2.1,
    (invalid_flag_cell_dispatches_nothing c6_state c6_env c6_msg 1 (by decide) (by decide)
      (by decide) (by decide) (by decide) (by decide) (by decide) (by decide) (by decide)
      (by decide)).2.2.1⟩

